import Mathlib

/-!
Verification development for the provisioning core of buffalo-azure
(file `cmd/provision.go`).  The Go code is shallowly embedded: pure helpers
become Lean functions, and network interaction is modelled by explicit
oracles (a function from request index to response, or per-tenant result
fields) so that every control path of the source is represented.  Each
embedded definition cites the source lines it translates.
-/

namespace BuffaloAzure

/-! ## Template download (provision.go, lines 744-816) -/

/-- An HTTP response as observed by the download loop: status code, the
value of the `Location` header, and the body bytes. -/
structure HTTPResponse where
  statusCode : Nat
  location : String
  body : List Nat
  deriving DecidableEq, Repr

/-- `redirectCodes` (provision.go lines 744-750): 301 MovedPermanently,
308 PermanentRedirect, 307 TemporaryRedirect, 303 SeeOther, 302 Found. -/
def redirectCodes : List Nat := [301, 308, 307, 303, 302]

/-- `temporaryFailureCodes` (provision.go lines 752-756): 429 TooManyRequests,
504 GatewayTimeout, 408 RequestTimeout.  502 BadGateway is NOT in this set. -/
def temporaryFailureCodes : List Nat := [429, 504, 408]

/-- `acceptedCodes` (provision.go lines 758-760): only 200 OK. -/
def acceptedCodes : List Nat := [200]

/-- `const maxRedirects = 5` (provision.go line 763). -/
def maxRedirects : Nat := 5

/-- `const maxRetries = 3` (provision.go line 764). -/
def maxRetries : Nat := 3

/-- Outcome of the recursive `download` closure in `downloadTemplate`
(provision.go lines 769-813).  `success` carries the bytes written to the
destination; the three error cases carry the messages
`too many redirects`, `too many attempts` and
`unexpected status code: <code>`; `transportFailure` stands for an error
returned by `http.NewRequest` or `http.DefaultClient.Do`. -/
inductive DownloadOutcome where
  | success (written : List Nat)
  | tooManyRedirects
  | tooManyAttempts
  | unexpectedStatus (code : Nat)
  | transportFailure
  deriving DecidableEq, Repr

/-- The recursive `download` closure (provision.go lines 769-813).  The
network is an oracle `net` giving the response to the i-th HTTP request
issued during the run (`none` models a transport-level error from
`http.NewRequest` or `http.DefaultClient.Do`); `idx` is the index of the
next request.  Besides the outcome, the function returns the list of URLs
actually requested, in order, so that the statements below can speak about
which hops were attempted.  Control structure mirrors the source: the
entry check `depth > maxRedirects`, then the loop
`for attempt := 0; attempt < maxRetries; attempt++` whose body issues one
request and dispatches on the status sets; falling out of the loop yields
`too many attempts`. -/
def download (net : Nat → Option HTTPResponse) (idx : Nat) (dest : List Nat)
    (src : String) (depth : Nat) (attempt : Nat) : DownloadOutcome × List String :=
  if depth > maxRedirects then
    (.tooManyRedirects, [])
  else if attempt < maxRetries then
    match net idx with
    | none => (.transportFailure, [src])
    | some resp =>
      if acceptedCodes.contains resp.statusCode then
        (.success (dest ++ resp.body), [src])
      else if redirectCodes.contains resp.statusCode then
        let next := download net (idx + 1) dest resp.location (depth + 1) 0
        (next.1, src :: next.2)
      else if temporaryFailureCodes.contains resp.statusCode then
        let next := download net (idx + 1) dest src depth (attempt + 1)
        (next.1, src :: next.2)
      else
        (.unexpectedStatus resp.statusCode, [src])
  else
    (.tooManyAttempts, [])
termination_by (maxRedirects + 1 - depth, maxRetries - attempt)
decreasing_by
  · apply Prod.Lex.left
    simp only [maxRedirects] at *
    omega
  · apply Prod.Lex.right
    simp only [maxRetries] at *
    omega

/-- `downloadTemplate` (provision.go lines 762-816): the download starts at
the requested source with redirect depth 1 and an empty destination. -/
def downloadTemplate (net : Nat → Option HTTPResponse) (src : String) :
    DownloadOutcome × List String :=
  download net 0 [] src 1 0

/-! ## Tenant discovery (provision.go, lines 818-856)

`getTenant` walks the paginated tenant iterator; for each tenant it builds
an OAuth config and mints a tenant-scoped token from the refresh token,
then walks that tenant's paginated subscription iterator looking for a
case-insensitive match of the target subscription ID.  Iterators are
modelled as the finite list of elements they yield followed by how they
stop: `terminal = none` is clean exhaustion, `terminal = some e` is an
error returned by `ListComplete`/`Next` after the listed elements. -/

/-- The subscription iterator of one tenant.  `items` are the
`SubscriptionID` pointers yielded (`none` models a nil pointer, which the
source skips without comparing). -/
structure SubIter where
  items : List (Option String)
  terminal : Option String
  deriving Repr

/-- One tenant yielded by the tenant iterator: its ID (the source
dereferences `TenantID` unconditionally, so it is taken non-nil), the
result of `adal.NewOAuthConfig` for that tenant, the result of
`adal.NewServicePrincipalTokenFromManualToken` (carrying the minted
authorizer on success), and its subscription iterator. -/
structure TenantEntry where
  tenantID : String
  oauthConfigResult : Except String Unit
  mintResult : Except String String
  subs : SubIter
  deriving Repr

/-- The tenant iterator obtained from `tenants.ListComplete`. -/
structure TenantIter where
  items : List TenantEntry
  terminal : Option String
  deriving Repr

/-- Result of `getTenant`: the discovered tenant with the authorizer minted
for it, a propagated error, or the `unable to find subscription: <id>`
failure. -/
inductive TenantResult where
  | found (tenantID : String) (auth : String)
  | failed (e : String)
  | notFound (subscription : String)
  deriving DecidableEq, Repr

/-- `strings.EqualFold` as used on subscription IDs (provision.go line 845),
modelled as ASCII case folding (subscription IDs are UUID strings). -/
def eqFold (a b : String) : Bool := a.data.map Char.toLower == b.data.map Char.toLower

/-- The inner subscription loop (provision.go lines 844-849): walk the
yielded subscription IDs, skipping nil pointers, comparing the rest
case-insensitively against the target.  Returns whether a match was found
together with the list of (tenantID, subscriptionID) comparisons actually
performed, in order, stopping at the first match. -/
def scanSubs (tenantID target : String) : List (Option String) → Bool × List (String × String)
  | [] => (false, [])
  | none :: rest => scanSubs tenantID target rest
  | some s :: rest =>
    if eqFold s target then (true, [(tenantID, s)])
    else
      let next := scanSubs tenantID target rest
      (next.1, (tenantID, s) :: next.2)

/-- The outer tenant loop of `getTenant` (provision.go lines 829-855).
Faithful to the source, including its error shadowing: inside the loop
body `currentConfig, err := ...` declares a new `err` that shadows the
function-level one, and the inner subscription loop assigns that shadowed
`err`; the outer loop condition and the final `if err != nil` read only
the outer `err`.  Consequently an error terminating the subscription
iterator of a tenant with no match is dropped and the scan continues with
the next tenant — `t.subs.terminal` is deliberately ignored below, as in
the source.  Config and mint errors are returned through explicit
`return` statements and do propagate.  The trace accumulates the
subscription comparisons performed. -/
def getTenantLoop (target : String) :
    List TenantEntry → Option String → TenantResult × List (String × String)
  | [], terminal =>
    match terminal with
    | some e => (.failed e, [])
    | none => (.notFound target, [])
  | t :: rest, terminal =>
    match t.oauthConfigResult with
    | .error e => (.failed e, [])
    | .ok _ =>
      match t.mintResult with
      | .error e => (.failed e, [])
      | .ok a =>
        match scanSubs t.tenantID target t.subs.items with
        | (true, tr) => (.found t.tenantID a, tr)
        | (false, tr) =>
          let next := getTenantLoop target rest terminal
          (next.1, tr ++ next.2)

/-- `getTenant` (provision.go lines 818-856). -/
def getTenant (target : String) (ti : TenantIter) : TenantResult × List (String × String) :=
  getTenantLoop target ti.items ti.terminal

/-- The (tenantID, subscriptionID) pairs a full scan of one tenant
compares: all non-nil yielded subscription IDs, in order. -/
def subPairs (tenantID : String) : List (Option String) → List (String × String)
  | [] => []
  | none :: rest => subPairs tenantID rest
  | some s :: rest => (tenantID, s) :: subPairs tenantID rest

/-- The full tenant-by-subscription cross-product of comparisons, each pair
exactly once, in iterator order. -/
def crossPairs : List TenantEntry → List (String × String)
  | [] => []
  | t :: rest => subPairs t.tenantID t.subs.items ++ crossPairs rest

/-- A tenant whose config and mint succeed, whose subscription iterator
ends cleanly, and none of whose yielded subscription IDs matches the
target. -/
def cleanNoMatch (target : String) (t : TenantEntry) : Prop :=
  t.oauthConfigResult = .ok () ∧ (∃ a, t.mintResult = .ok a) ∧ t.subs.terminal = none ∧
    ∀ o ∈ t.subs.items, ∀ y, o = some y → eqFold y target = false

/-! ## Resource group ensure (provision.go, lines 597-626) -/

/-- A request the resource-group client issues to the provider. -/
inductive RGRequest where
  | existenceCheck (name : String)
  | create (name location : String)
  deriving DecidableEq, Repr

/-- Provider-side state: the existing resource groups as (name, location)
pairs. -/
abbrev RGState := List (String × String)

/-- Modelled from the spec: the provider (the Azure resource-management
endpoint) is an external collaborator; section 4.4 fixes its verb/status
mapping.  The existence check answers 204 NoContent when the group is
present and 404 NotFound when absent. -/
def checkExistenceStatus (st : RGState) (name : String) : Nat :=
  if (st.lookup name).isSome then 204 else 404

/-- Modelled from the spec: provider create-or-update stores the group
and answers 201 Created on creation, 200 OK when it already existed. -/
def createOrUpdateGroup (st : RGState) (name location : String) : RGState × Nat :=
  match st.lookup name with
  | some _ => (st, 200)
  | none => ((name, location) :: st, 201)

/-- `insertResourceGroup` (provision.go lines 599-626): check-then-act.
Returns the provider state after the call, the (created, err) result, and
the requests issued.  Transport-level errors of the SDK client are not
modelled (the provider model always answers with a status); the status
dispatch is the switch of the source. -/
def insertResourceGroup (st : RGState) (name location : String) :
    RGState × Except String Bool × List RGRequest :=
  let existStatus := checkExistenceStatus st name
  if existStatus = 204 then
    (st, .ok false, [.existenceCheck name])
  else if existStatus = 404 then
    let created := createOrUpdateGroup st name location
    if created.2 = 201 then
      (created.1, .ok true, [.existenceCheck name, .create name location])
    else if created.2 = 200 then
      (created.1, .ok false, [.existenceCheck name, .create name location])
    else
      (created.1,
        .error ("unexpected status code " ++ toString created.2 ++
          " during resource group creation"),
        [.existenceCheck name, .create name location])
  else
    (st,
      .error ("unexpected status code " ++ toString existStatus ++
        " during resource group existence check"),
      [.existenceCheck name])

/-! ## Parameter sanitization (provision.go, lines 563-575) -/

/-- Modelled from the spec: the `DeploymentParameter` record declaration is
not among the provided sources (only its uses in provision.go are); per
section 3 a parameter is one typed value.  The value type is kept
abstract. -/
structure DeploymentParameter (α : Type) where
  Value : α
  deriving DecidableEq, Repr

/-- Modelled from the spec: the `DeploymentParameters` record declaration
is not among the provided sources; per section 3 it is a mapping from
parameter name to value plus a schema identifier and a content-version
string — matching the fields `Parameters`, `Schema` and `ContentVersion`
that provision.go reads and writes.  The map is modelled by its entry
list; Go map observations are key lookup and key deletion. -/
structure DeploymentParameters (α : Type) where
  Schema : String
  ContentVersion : String
  Parameters : List (String × DeploymentParameter α)
  deriving DecidableEq, Repr

/-- Go `delete(m, k)` on the entry-list model of a map. -/
def mapDelete (k : String) (m : List (String × DeploymentParameter α)) :
    List (String × DeploymentParameter α) :=
  m.filter (fun e => e.1 != k)

/-- `stripPasswords` (provision.go lines 563-575).  The source receives
`original` by pointer, builds a fresh `copy` (fresh `Parameters` map,
`ContentVersion` and `Schema` taken over, every entry of the original map
copied), then deletes the two password keys from the copy and returns it.
The pointer argument is threaded through: the first component of the
result is the state of `original` when the function returns (the source
never assigns through the pointer), the second is the returned copy. -/
def stripPasswords (original : DeploymentParameters α) :
    DeploymentParameters α × DeploymentParameters α :=
  let copyParams0 := original.Parameters
  let copyParams1 := mapDelete "databaseAdministratorLoginPassword" copyParams0
  let copyParams2 := mapDelete "dockerRegistryServerPassword" copyParams1
  (original,
    { Schema := original.Schema
      ContentVersion := original.ContentVersion
      Parameters := copyParams2 })

/-! ## Provision argument validation (provision.go, lines 483-495) -/

/-- The credential-related prefix of the `Args` validation of the
provision command (provision.go lines 483-495): a subscription ID is
required first; when neither client credential is given, device auth is
forced; a lone client ID or lone client secret is rejected.  Returns the
resulting use-device-auth flag on success.  The remainder of `Args`
(logging level, parameter-file loading, name defaulting, environment
lookup) runs only when this prefix succeeds and is not involved in the
claims.  The model is pure: this validation performs no network call. -/
def checkProvisionArgs (subscriptionID clientID clientSecret : String)
    (useDeviceAuth : Bool) : Except String Bool :=
  if subscriptionID = "" then
    .error "no value found for \"subscription-id\""
  else
    let hasClientID := clientID != ""
    let hasClientSecret := clientSecret != ""
    if !hasClientSecret && !hasClientID then
      .ok true
    else if (hasClientID || hasClientSecret) && !(hasClientID && hasClientSecret) then
      .error "--client-id and --client-secret must be specified together or not at all"
    else
      .ok useDeviceAuth

/-! ## Authorizer resolution (provision.go, lines 628-685) -/

/-- The network-visible steps `getAuthorizer` can take against the
identity service. -/
inductive AuthEffect where
  | deviceCodeInitiated
  | userCompletionAwaited
  | tenantDiscovery
  | servicePrincipalTokenMinted
  deriving DecidableEq, Repr

/-- Oracles for the effectful steps of `getAuthorizer`:
`adal.InitiateDeviceAuth`, `adal.WaitForUserCompletion` (yielding the raw
device token), `getTenant` (yielding the discovered tenant ID and its
authorizer), and `adal.NewServicePrincipalToken`. -/
structure AuthWorld where
  initiateDeviceAuth : Except String Unit
  waitForUserCompletion : Except String String
  tenantLookup : Except String (String × String)
  mintServicePrincipalToken : Except String String

/-- Authorizer values returned by `getAuthorizer`: a bearer authorizer
wrapping a token, or the authorizer adopted from tenant discovery. -/
inductive Authorizer where
  | bearer (token : String)
  | discovered (auth : String)
  deriving DecidableEq, Repr

/-- `getAuthorizer` (provision.go lines 628-685).  An empty tenant ID is
replaced by the placeholder `common`.  `adal.NewOAuthConfig` is a local
URL construction that succeeds for the fixed cloud endpoints and is
modelled as total.  With the device-auth flag set, the device flow runs
and, for an unresolved tenant, delegates to tenant discovery; without
the flag (service-principal path), an unresolved tenant is rejected
before any request, otherwise a service-principal token is minted.  The
second component lists the steps actually taken, in order. -/
def getAuthorizer (w : AuthWorld) (useDeviceAuth : Bool)
    (subscriptionID clientID clientSecret tenantID : String) :
    Except String Authorizer × List AuthEffect :=
  let tenant := if tenantID = "" then "common" else tenantID
  if useDeviceAuth then
    match w.initiateDeviceAuth with
    | .error e => (.error e, [.deviceCodeInitiated])
    | .ok _ =>
      match w.waitForUserCompletion with
      | .error e => (.error e, [.deviceCodeInitiated, .userCompletionAwaited])
      | .ok token =>
        if tenant = "common" then
          match w.tenantLookup with
          | .error e =>
            (.error e, [.deviceCodeInitiated, .userCompletionAwaited, .tenantDiscovery])
          | .ok ta =>
            (.ok (.discovered ta.2),
              [.deviceCodeInitiated, .userCompletionAwaited, .tenantDiscovery])
        else
          (.ok (.bearer token), [.deviceCodeInitiated, .userCompletionAwaited])
  else
    if tenant = "common" then
      (.error "tenant inference unsupported with Service Principal authentication", [])
    else
      match w.mintServicePrincipalToken with
      | .error e => (.error e, [.servicePrincipalTokenMinted])
      | .ok t => (.ok (.bearer t), [.servicePrincipalTokenMinted])

/-- A transient status code is in none of the other dispatch sets. -/
lemma transient_dispatch (c : Nat) (hc : c ∈ temporaryFailureCodes) :
    c ∉ acceptedCodes ∧ c ∉ redirectCodes := by
  fin_cases hc <;> decide

/-- A redirect status code is not an accepted code. -/
lemma redirect_dispatch (c : Nat) (hc : c ∈ redirectCodes) : c ∉ acceptedCodes := by
  fin_cases hc <;> decide

/-- Entry guard: a hop whose depth exceeds `maxRedirects` fails at once with
the redirect-loop error, without issuing a request. -/
lemma download_stop_redirects (net : Nat → Option HTTPResponse) (idx : Nat) (dest : List Nat)
    (src : String) (depth attempt : Nat) (h : depth > maxRedirects) :
    download net idx dest src depth attempt = (.tooManyRedirects, []) := by
  rw [download]
  simp [h]

/-- Falling out of the attempt loop yields the retries-exhausted error. -/
lemma download_stop_attempts (net : Nat → Option HTTPResponse) (idx : Nat) (dest : List Nat)
    (src : String) (depth attempt : Nat) (h1 : ¬ depth > maxRedirects)
    (h2 : ¬ attempt < maxRetries) :
    download net idx dest src depth attempt = (.tooManyAttempts, []) := by
  rw [download]
  simp [h1, h2]

/-- A transient response repeats the same hop with the attempt counter
incremented; the same URL is requested again. -/
lemma download_step_transient (net : Nat → Option HTTPResponse) (idx : Nat) (dest : List Nat)
    (src : String) (depth attempt : Nat) (r : HTTPResponse)
    (h1 : ¬ depth > maxRedirects) (h2 : attempt < maxRetries)
    (hr : net idx = some r) (hc : r.statusCode ∈ temporaryFailureCodes) :
    download net idx dest src depth attempt =
      ((download net (idx + 1) dest src depth (attempt + 1)).1,
        src :: (download net (idx + 1) dest src depth (attempt + 1)).2) := by
  obtain ⟨a, b⟩ := transient_dispatch _ hc
  rw [download]
  simp [h1, h2, hr, a, b, hc]

/-- A redirect response follows the `Location` header as a new hop with the
depth incremented and the attempt counter reset. -/
lemma download_step_redirect (net : Nat → Option HTTPResponse) (idx : Nat) (dest : List Nat)
    (src : String) (depth attempt : Nat) (r : HTTPResponse)
    (h1 : ¬ depth > maxRedirects) (h2 : attempt < maxRetries)
    (hr : net idx = some r) (hc : r.statusCode ∈ redirectCodes) :
    download net idx dest src depth attempt =
      ((download net (idx + 1) dest r.location (depth + 1) 0).1,
        src :: (download net (idx + 1) dest r.location (depth + 1) 0).2) := by
  have a := redirect_dispatch _ hc
  rw [download]
  simp [h1, h2, hr, a, hc]

/-- A 200 response copies the body to the destination and succeeds. -/
lemma download_step_success (net : Nat → Option HTTPResponse) (idx : Nat) (dest : List Nat)
    (src : String) (depth attempt : Nat) (r : HTTPResponse)
    (h1 : ¬ depth > maxRedirects) (h2 : attempt < maxRetries)
    (hr : net idx = some r) (hc : r.statusCode = 200) :
    download net idx dest src depth attempt = (.success (dest ++ r.body), [src]) := by
  rw [download]
  simp [h1, h2, hr, hc, acceptedCodes]

/-- A response whose status is in none of the three dispatch sets fails at
once with the unexpected-status error. -/
lemma download_step_unexpected (net : Nat → Option HTTPResponse) (idx : Nat) (dest : List Nat)
    (src : String) (depth attempt : Nat) (r : HTTPResponse)
    (h1 : ¬ depth > maxRedirects) (h2 : attempt < maxRetries)
    (hr : net idx = some r) (ha : r.statusCode ∉ acceptedCodes)
    (hb : r.statusCode ∉ redirectCodes) (hc : r.statusCode ∉ temporaryFailureCodes) :
    download net idx dest src depth attempt = (.unexpectedStatus r.statusCode, [src]) := by
  rw [download]
  simp [h1, h2, hr, ha, hb, hc]

/-- On an all-redirect network, a hop at depth `depth` with
`depth + k = maxRedirects + 1` fails with the redirect-loop error after
requesting exactly `k` further URLs. -/
lemma redirect_chain (net : Nat → Option HTTPResponse)
    (hall : ∀ j, ∃ r, net j = some r ∧ r.statusCode ∈ redirectCodes) :
    ∀ (k idx : Nat) (dest : List Nat) (src : String) (depth : Nat),
      depth + k = maxRedirects + 1 →
      ∃ tr, download net idx dest src depth 0 = (.tooManyRedirects, tr) ∧ tr.length = k := by
  intro k
  induction k with
  | zero =>
    intro idx dest src depth hdep
    refine ⟨[], ?_, rfl⟩
    exact download_stop_redirects net idx dest src depth 0 (by omega)
  | succ k ih =>
    intro idx dest src depth hdep
    obtain ⟨r, hr, hc⟩ := hall idx
    have h1 : ¬ depth > maxRedirects := by
      simp only [maxRedirects] at hdep ⊢
      omega
    rw [download_step_redirect net idx dest src depth 0 r h1 (by decide) hr hc]
    obtain ⟨tr, htr, hlen⟩ := ih (idx + 1) dest r.location (depth + 1) (by omega)
    exact ⟨src :: tr, by rw [htr], by simp [hlen]⟩

/-- A hop at legal depth whose responses are all transient exhausts the
attempt loop: the same URL is requested `maxRetries` times, then the
retries-exhausted error is returned. -/
lemma download_retry_exhaust (net : Nat → Option HTTPResponse) (idx : Nat) (dest : List Nat)
    (src : String) (depth : Nat)
    (hd : depth ≤ maxRedirects)
    (h : ∀ k, k < maxRetries →
      ∃ r, net (idx + k) = some r ∧ r.statusCode ∈ temporaryFailureCodes) :
    download net idx dest src depth 0 = (.tooManyAttempts, [src, src, src]) := by
  obtain ⟨r0, h0, c0⟩ := h 0 (by decide)
  obtain ⟨r1, h1, c1⟩ := h 1 (by decide)
  obtain ⟨r2, h2, c2⟩ := h 2 (by decide)
  have h0' : net idx = some r0 := by simpa using h0
  have hng : ¬ depth > maxRedirects := by omega
  rw [download_step_transient net idx dest src depth 0 r0 hng (by decide) h0' c0]
  rw [download_step_transient net (idx + 1) dest src depth 1 r1 hng (by decide) h1 c1]
  rw [download_step_transient net (idx + 1 + 1) dest src depth 2 r2 hng (by decide) h2 c2]
  rw [download_stop_attempts net (idx + 1 + 1 + 1) dest src depth 3 hng (by decide)]

/-- Claim C1 (amended): for every status code in the transient set of the
code, {408, 429, 504}, the download retries the same hop (the same URL,
no redirect, no immediate failure) up to `maxRetries = 3` attempts; if
every attempt at the hop yields a transient status, it fails with the
retries-exhausted error `too many attempts` after requesting the same URL
exactly three times.  (502 is not in the transient set of the code.) -/
theorem downloadTemplate_transient_retries :
    (∀ (net : Nat → Option HTTPResponse) (idx : Nat) (dest : List Nat) (src : String)
        (depth attempt : Nat) (r : HTTPResponse),
        depth ≤ maxRedirects → attempt < maxRetries →
        net idx = some r → r.statusCode ∈ temporaryFailureCodes →
        download net idx dest src depth attempt =
          ((download net (idx + 1) dest src depth (attempt + 1)).1,
            src :: (download net (idx + 1) dest src depth (attempt + 1)).2)) ∧
    (∀ (net : Nat → Option HTTPResponse) (idx : Nat) (dest : List Nat) (src : String)
        (depth : Nat),
        depth ≤ maxRedirects →
        (∀ k, k < maxRetries →
          ∃ r, net (idx + k) = some r ∧ r.statusCode ∈ temporaryFailureCodes) →
        download net idx dest src depth 0 = (.tooManyAttempts, [src, src, src])) := by
  constructor
  · intro net idx dest src depth attempt r hd ha hr hc
    exact download_step_transient net idx dest src depth attempt r (by omega) ha hr hc
  · intro net idx dest src depth hd h
    exact download_retry_exhaust net idx dest src depth hd h

/-- Witness for C1: a network answering 429 forever makes the download
request the initial URL three times and then fail with
`too many attempts`. -/
theorem downloadTemplate_transient_retries_witness :
    download (fun _ => some ⟨429, "", []⟩) 0 [] "w" 1 0 =
      (.tooManyAttempts, ["w", "w", "w"]) :=
  downloadTemplate_transient_retries.2 (fun _ => some ⟨429, "", []⟩) 0 [] "w" 1
    (by decide) (fun k _ => ⟨⟨429, "", []⟩, rfl, by decide⟩)

/-- Counterexample for C1 as stated: 502 is claimed transient, but the code
answers a 502 response with the immediate error `unexpected status code:
502` after a single request — it is never retried. -/
theorem download_502_fails_immediately :
    downloadTemplate (fun _ => some ⟨502, "", []⟩) "u" = (.unexpectedStatus 502, ["u"]) := by
  simp [downloadTemplate, download, redirectCodes, temporaryFailureCodes, acceptedCodes,
    maxRedirects, maxRetries]

/-- Claim C3: every status in {301, 302, 303, 307, 308} makes the download
follow the `Location` header as a new hop with the depth incremented; a
hop whose depth exceeds `maxRedirects = 5` fails with the redirect-loop
error `too many redirects`; and on a network answering only redirect
codes (any mix) the download fails with that error after following
exactly `maxRedirects` redirects. -/
theorem downloadTemplate_redirect_policy :
    (∀ (net : Nat → Option HTTPResponse) (idx : Nat) (dest : List Nat) (src : String)
        (depth attempt : Nat) (r : HTTPResponse),
        depth ≤ maxRedirects → attempt < maxRetries →
        net idx = some r → r.statusCode ∈ redirectCodes →
        download net idx dest src depth attempt =
          ((download net (idx + 1) dest r.location (depth + 1) 0).1,
            src :: (download net (idx + 1) dest r.location (depth + 1) 0).2)) ∧
    (∀ (net : Nat → Option HTTPResponse) (idx : Nat) (dest : List Nat) (src : String)
        (depth attempt : Nat), depth > maxRedirects →
        download net idx dest src depth attempt = (.tooManyRedirects, [])) ∧
    (∀ (net : Nat → Option HTTPResponse) (src : String),
        (∀ j, ∃ r, net j = some r ∧ r.statusCode ∈ redirectCodes) →
        ∃ tr, downloadTemplate net src = (.tooManyRedirects, tr) ∧
          tr.length = maxRedirects) := by
  refine ⟨?_, ?_, ?_⟩
  · intro net idx dest src depth attempt r hd ha hr hc
    exact download_step_redirect net idx dest src depth attempt r (by omega) ha hr hc
  · intro net idx dest src depth attempt h
    exact download_stop_redirects net idx dest src depth attempt h
  · intro net src hall
    exact redirect_chain net hall maxRedirects 0 [] src 1 (by decide)

/-- Witness for C3: a network answering 302 forever makes the download fail
with `too many redirects` after five hops. -/
theorem downloadTemplate_redirect_policy_witness :
    ∃ tr, downloadTemplate (fun _ => some ⟨302, "x", []⟩) "w" = (.tooManyRedirects, tr) ∧
      tr.length = maxRedirects :=
  downloadTemplate_redirect_policy.2.2 (fun _ => some ⟨302, "x", []⟩) "w"
    (fun _ => ⟨⟨302, "x", []⟩, rfl, by decide⟩)

/-- Claim C4 (amended): only status 200 is accepted — a 200 response copies
the body to the destination and succeeds; and a fetch answered with one
302 redirect followed by a 200 succeeds and yields the final body
unchanged.  (2xx codes other than 200 are rejected.) -/
theorem downloadTemplate_ok_200 :
    (∀ (net : Nat → Option HTTPResponse) (idx : Nat) (dest : List Nat) (src : String)
        (depth attempt : Nat) (r : HTTPResponse),
        depth ≤ maxRedirects → attempt < maxRetries →
        net idx = some r → r.statusCode = 200 →
        download net idx dest src depth attempt = (.success (dest ++ r.body), [src])) ∧
    (∀ (net : Nat → Option HTTPResponse) (src : String) (r0 r1 : HTTPResponse),
        net 0 = some r0 → r0.statusCode = 302 →
        net 1 = some r1 → r1.statusCode = 200 →
        downloadTemplate net src = (.success r1.body, [src, r0.location])) := by
  constructor
  · intro net idx dest src depth attempt r hd ha hr hc
    exact download_step_success net idx dest src depth attempt r (by omega) ha hr hc
  · intro net src r0 r1 h0 c0 h1 c1
    have hmem : r0.statusCode ∈ redirectCodes := by rw [c0]; decide
    rw [downloadTemplate,
      download_step_redirect net 0 [] src 1 0 r0 (by decide) (by decide) h0 hmem,
      download_step_success net 1 [] r0.location 2 0 r1 (by decide) (by decide) h1 c1]
    simp

/-- Witness for C4: a fetch answered 302 (to `x`) then 200 with body `[9]`
succeeds and writes exactly `[9]`. -/
theorem downloadTemplate_ok_200_witness :
    downloadTemplate (fun i => if i = 0 then some ⟨302, "x", []⟩ else some ⟨200, "", [9]⟩) "w" =
      (.success [9], ["w", "x"]) :=
  downloadTemplate_ok_200.2 (fun i => if i = 0 then some ⟨302, "x", []⟩ else some ⟨200, "", [9]⟩)
    "w" ⟨302, "x", []⟩ ⟨200, "", [9]⟩ (by decide) rfl (by decide) rfl

/-- Counterexample for C4 as stated: 201 is a 2xx status, yet the code
fails immediately with `unexpected status code: 201` instead of copying
the body. -/
theorem download_201_not_accepted :
    downloadTemplate (fun _ => some ⟨201, "", [7]⟩) "u" = (.unexpectedStatus 201, ["u"]) := by
  simp [downloadTemplate, download, redirectCodes, temporaryFailureCodes, acceptedCodes,
    maxRedirects, maxRetries]

/-- A subscription scan with no matching ID compares every non-nil yielded
ID exactly once and reports no match. -/
lemma scanSubs_noMatch (tenantID target : String) :
    ∀ items : List (Option String),
      (∀ o ∈ items, ∀ y, o = some y → eqFold y target = false) →
      scanSubs tenantID target items = (false, subPairs tenantID items) := by
  intro items
  induction items with
  | nil => intro _; rfl
  | cons o rest ih =>
    intro h
    cases o with
    | none =>
      rw [scanSubs, subPairs]
      exact ih fun o ho => h o (List.mem_cons_of_mem _ ho)
    | some s =>
      have hs : eqFold s target = false := h (some s) (List.mem_cons_self _ _) s rfl
      rw [scanSubs, subPairs, hs]
      simp only [Bool.false_eq_true, if_false]
      rw [ih fun o ho => h o (List.mem_cons_of_mem _ ho)]

/-- A subscription scan stops at the first matching ID: everything before
it is compared once, nothing after it is looked at. -/
lemma scanSubs_match (tenantID target s : String) :
    ∀ (pre post : List (Option String)),
      (∀ o ∈ pre, ∀ y, o = some y → eqFold y target = false) →
      eqFold s target = true →
      scanSubs tenantID target (pre ++ some s :: post) =
        (true, subPairs tenantID pre ++ [(tenantID, s)]) := by
  intro pre
  induction pre with
  | nil =>
    intro post _ hs
    rw [List.nil_append, scanSubs, hs]
    simp [subPairs]
  | cons o rest ih =>
    intro post h hs
    cases o with
    | none =>
      rw [List.cons_append, scanSubs, subPairs]
      exact ih post (fun o ho => h o (List.mem_cons_of_mem _ ho)) hs
    | some y =>
      have hy : eqFold y target = false := h (some y) (List.mem_cons_self _ _) y rfl
      rw [List.cons_append, scanSubs, hy]
      simp only [Bool.false_eq_true, if_false]
      rw [subPairs, ih post (fun o ho => h o (List.mem_cons_of_mem _ ho)) hs]
      simp

/-- Tenants that mint fine and hold no match are passed through, each of
their visible subscriptions compared exactly once, and the loop ends on
the iterator terminal. -/
lemma getTenantLoop_clean (target : String) :
    ∀ (entries : List TenantEntry) (terminal : Option String),
      (∀ u ∈ entries, cleanNoMatch target u) →
      getTenantLoop target entries terminal =
        ((match terminal with
          | some e => TenantResult.failed e
          | none => TenantResult.notFound target), crossPairs entries) := by
  intro entries
  induction entries with
  | nil =>
    intro terminal _
    cases terminal <;> rfl
  | cons t rest ih =>
    intro terminal h
    obtain ⟨hcfg, ⟨a, hmint⟩, -, hnone⟩ := h t (List.mem_cons_self _ _)
    rw [getTenantLoop, hcfg, hmint, scanSubs_noMatch t.tenantID target t.subs.items hnone,
      crossPairs, ih terminal fun u hu => h u (List.mem_cons_of_mem _ hu)]

/-- Tenants that are passed through leave the loop result to the rest of
the iterator; see `getTenantLoop_clean`.  At the matching tenant the loop
returns that tenant and the authorizer its mint produced. -/
lemma getTenantLoop_found (target : String) :
    ∀ (preT : List TenantEntry) (t : TenantEntry) (postT : List TenantEntry) (a : String)
      (pre post : List (Option String)) (s : String) (terminal : Option String),
      (∀ u ∈ preT, cleanNoMatch target u) →
      t.oauthConfigResult = .ok () → t.mintResult = .ok a →
      t.subs.items = pre ++ some s :: post →
      (∀ o ∈ pre, ∀ y, o = some y → eqFold y target = false) →
      eqFold s target = true →
      getTenantLoop target (preT ++ t :: postT) terminal =
        (.found t.tenantID a, crossPairs preT ++ (subPairs t.tenantID pre ++ [(t.tenantID, s)])) := by
  intro preT
  induction preT with
  | nil =>
    intro t postT a pre post s terminal _ hcfg hmint hsubs hpre hs
    rw [List.nil_append, getTenantLoop, hcfg, hmint, hsubs,
      scanSubs_match t.tenantID target s pre post hpre hs]
    simp [crossPairs]
  | cons u rest ih =>
    intro t postT a pre post s terminal hclean hcfg hmint hsubs hpre hs
    obtain ⟨hucfg, ⟨b, humint⟩, -, hunone⟩ := hclean u (List.mem_cons_self _ _)
    have hscan := scanSubs_noMatch u.tenantID target u.subs.items hunone
    have htail := ih t postT a pre post s terminal
      (fun v hv => hclean v (List.mem_cons_of_mem _ hv)) hcfg hmint hsubs hpre hs
    rw [List.cons_append, getTenantLoop, hucfg, humint, hscan]
    simp only [htail, crossPairs, List.append_assoc]

/-- Claim C5: tenant discovery compares each visible subscription to the
target case-insensitively; it returns the enclosing tenant and the
authorizer minted for it at the first match, scanning nothing further;
and when no error occurs and no subscription matches, it fails with
`unable to find subscription: <target>` after comparing the full
tenant-by-subscription cross-product exactly once. -/
theorem getTenant_first_match_and_notFound :
    (∀ (target : String) (ti : TenantIter) (preT : List TenantEntry) (t : TenantEntry)
        (postT : List TenantEntry) (a : String) (pre : List (Option String)) (s : String)
        (post : List (Option String)),
        ti.items = preT ++ t :: postT →
        (∀ u ∈ preT, cleanNoMatch target u) →
        t.oauthConfigResult = .ok () →
        t.mintResult = .ok a →
        t.subs.items = pre ++ some s :: post →
        (∀ o ∈ pre, ∀ y, o = some y → eqFold y target = false) →
        eqFold s target = true →
        getTenant target ti =
          (.found t.tenantID a,
            crossPairs preT ++ (subPairs t.tenantID pre ++ [(t.tenantID, s)]))) ∧
    (∀ (target : String) (ti : TenantIter),
        ti.terminal = none →
        (∀ u ∈ ti.items, cleanNoMatch target u) →
        getTenant target ti = (.notFound target, crossPairs ti.items)) := by
  constructor
  · intro target ti preT t postT a pre s post hitems hclean hcfg hmint hsubs hpre hs
    rw [getTenant, hitems]
    exact getTenantLoop_found target preT t postT a pre post s ti.terminal hclean hcfg hmint
      hsubs hpre hs
  · intro target ti hterm hclean
    rw [getTenant, hterm, getTenantLoop_clean target ti.items none hclean]

/-- Witness for C5: with one clean tenant before the owning one, discovery
returns the second tenant and its freshly minted authorizer, having
compared only the two IDs scanned before and at the match. -/
theorem getTenant_first_match_and_notFound_witness :
    getTenant "ABC"
      ⟨[⟨"t1", .ok (), .ok "a1", ⟨[some "zzz", none], none⟩⟩,
        ⟨"t2", .ok (), .ok "a2", ⟨[some "abc", some "later"], none⟩⟩], none⟩ =
      (.found "t2" "a2", [("t1", "zzz"), ("t2", "abc")]) :=
  getTenant_first_match_and_notFound.1 "ABC"
    ⟨[⟨"t1", .ok (), .ok "a1", ⟨[some "zzz", none], none⟩⟩,
      ⟨"t2", .ok (), .ok "a2", ⟨[some "abc", some "later"], none⟩⟩], none⟩
    [⟨"t1", .ok (), .ok "a1", ⟨[some "zzz", none], none⟩⟩]
    ⟨"t2", .ok (), .ok "a2", ⟨[some "abc", some "later"], none⟩⟩
    [] "a2" [] "abc" [some "later"]
    rfl
    (by intro u hu
        simp only [List.mem_singleton] at hu
        subst hu
        refine ⟨rfl, ⟨"a1", rfl⟩, rfl, ?_⟩
        intro o ho y hy
        simp only [List.mem_cons, List.not_mem_nil, or_false] at ho
        rcases ho with h | h
        · subst h
          cases hy
          decide
        · subst h
          cases hy)
    rfl rfl rfl
    (by intro o ho; simp at ho)
    (by decide)

/-- Claim C2 is violated by the source: an error from a tenant
subscription listing is assigned to a shadowed `err` variable and
silently dropped, so the scan continues with the remaining tenants
instead of propagating.  Here tenant `t1` fails its subscription listing
with `listing failed`, yet discovery skips it and returns `t2`. -/
theorem getTenant_drops_listing_error :
    getTenant "target-sub"
      ⟨[⟨"t1", .ok (), .ok "a1", ⟨[], some "listing failed"⟩⟩,
        ⟨"t2", .ok (), .ok "a2", ⟨[some "TARGET-SUB"], none⟩⟩], none⟩ =
      (.found "t2" "a2", [("t2", "TARGET-SUB")]) := by
  decide

/-- Claim C6: resource-group ensure is idempotent.  When the group is
absent, the first call creates it with the requested region and reports
created = true; a second call with the same name and any (possibly
different) requested region reports created = false with no error,
issues no create request, and leaves the provider state — including the
stored region — untouched. -/
theorem insertResourceGroup_idempotent :
    ∀ (st : RGState) (name loc loc2 : String),
      st.lookup name = none →
      insertResourceGroup st name loc =
        ((name, loc) :: st, .ok true, [.existenceCheck name, .create name loc]) ∧
      insertResourceGroup ((name, loc) :: st) name loc2 =
        ((name, loc) :: st, .ok false, [.existenceCheck name]) ∧
      ((name, loc) :: st).lookup name = some loc := by
  intro st name loc loc2 h
  refine ⟨?_, ?_, ?_⟩
  · simp [insertResourceGroup, checkExistenceStatus, createOrUpdateGroup, h]
  · simp [insertResourceGroup, checkExistenceStatus, createOrUpdateGroup, List.lookup]
  · simp [List.lookup]

/-- Witness for C6: the scenario of the spec — "demo-rg" absent, first
ensure creates it in "centralus" and reports created = true; a second
ensure with region "eastus" reports created = false and the stored
region remains "centralus". -/
theorem insertResourceGroup_idempotent_witness :
    insertResourceGroup [] "demo-rg" "centralus" =
      ([("demo-rg", "centralus")], .ok true,
        [.existenceCheck "demo-rg", .create "demo-rg" "centralus"]) ∧
    insertResourceGroup [("demo-rg", "centralus")] "demo-rg" "eastus" =
      ([("demo-rg", "centralus")], .ok false, [.existenceCheck "demo-rg"]) ∧
    List.lookup "demo-rg" [("demo-rg", "centralus")] = some "centralus" :=
  insertResourceGroup_idempotent [] "demo-rg" "centralus" "eastus" rfl


/-- Two successive deletions collapse to one filter. -/
lemma mapDelete_mapDelete (j k : String) (m : List (String × DeploymentParameter α)) :
    mapDelete k (mapDelete j m) = m.filter (fun e => (e.1 != k) && (e.1 != j)) := by
  simp only [mapDelete, List.filter_filter]

/-- Deleting a key makes it absent from the map. -/
lemma mapDelete_lookup_self (k : String) (m : List (String × DeploymentParameter α)) :
    (mapDelete k m).lookup k = none := by
  induction m with
  | nil => rfl
  | cons e rest ih =>
    simp only [mapDelete] at ih
    by_cases h : e.1 = k
    · have hb : (e.1 != k) = false := by simp [h]
      simpa [mapDelete, List.filter_cons, hb] using ih
    · have hb : (e.1 != k) = true := by simp [h]
      have hk : (k == e.1) = false := by simp [Ne.symm h]
      simp [mapDelete, List.filter_cons, hb, List.lookup, hk, ih]

/-- Deleting a key leaves every other key unchanged. -/
lemma mapDelete_lookup_ne (k q : String) (h : q ≠ k)
    (m : List (String × DeploymentParameter α)) :
    (mapDelete k m).lookup q = m.lookup q := by
  induction m with
  | nil => rfl
  | cons e rest ih =>
    simp only [mapDelete] at ih
    by_cases he : e.1 = k
    · have hb : (e.1 != k) = false := by simp [he]
      have hq : (q == e.1) = false := by simp [he, h]
      simp [mapDelete, List.filter_cons, hb, List.lookup, hq, ih]
    · have hb : (e.1 != k) = true := by simp [he]
      by_cases hq : q = e.1
      · simp [mapDelete, List.filter_cons, hb, List.lookup, hq]
      · have hq2 : (q == e.1) = false := by simp [hq]
        simp [mapDelete, List.filter_cons, hb, List.lookup, hq2, ih]

/-- Deleting the same two keys again changes nothing. -/
lemma mapDelete_pair_idem (a b : String) (m : List (String × DeploymentParameter α)) :
    mapDelete b (mapDelete a (mapDelete b (mapDelete a m))) = mapDelete b (mapDelete a m) := by
  simp only [mapDelete, List.filter_filter]
  apply List.filter_congr
  intro e _
  cases hx : (e.1 != b) <;> cases hy : (e.1 != a) <;> simp [hx, hy]

/-- Claim C7: sanitization is idempotent and total — for every input
parameter set, including one lacking the secret keys, the sanitized copy
contains neither `databaseAdministratorLoginPassword` nor
`dockerRegistryServerPassword`, and sanitizing an already-sanitized set
yields the same set. -/
theorem stripPasswords_sanitizes :
    ∀ (α : Type) (p : DeploymentParameters α),
      (stripPasswords p).2.Parameters.lookup "databaseAdministratorLoginPassword" = none ∧
      (stripPasswords p).2.Parameters.lookup "dockerRegistryServerPassword" = none ∧
      stripPasswords ((stripPasswords p).2) = ((stripPasswords p).2, (stripPasswords p).2) := by
  intro α p
  refine ⟨?_, ?_, ?_⟩
  · rw [stripPasswords]
    simp only []
    rw [mapDelete_lookup_ne _ _ (by decide), mapDelete_lookup_self]
  · rw [stripPasswords]
    simp only []
    exact mapDelete_lookup_self _ _
  · simp only [stripPasswords]
    rw [mapDelete_pair_idem]

/-- Claim C10: `stripPasswords` never mutates its argument — the original
set is exactly what went in — and the returned copy agrees with the
original on `Schema`, `ContentVersion`, and the value of every key other
than the two removed password keys. -/
theorem stripPasswords_frame :
    ∀ (α : Type) (p : DeploymentParameters α),
      (stripPasswords p).1 = p ∧
      (stripPasswords p).2.Schema = p.Schema ∧
      (stripPasswords p).2.ContentVersion = p.ContentVersion ∧
      ∀ k, k ≠ "databaseAdministratorLoginPassword" → k ≠ "dockerRegistryServerPassword" →
        (stripPasswords p).2.Parameters.lookup k = p.Parameters.lookup k := by
  intro α p
  refine ⟨rfl, rfl, rfl, ?_⟩
  intro k h1 h2
  rw [stripPasswords]
  simp only []
  rw [mapDelete_lookup_ne _ _ h2, mapDelete_lookup_ne _ _ h1]

/-- Witness for C10 at a concrete parameter set: the original is returned
untouched and the key `name` keeps its value in the sanitized copy. -/
theorem stripPasswords_frame_witness :
    (stripPasswords
        (⟨"sch", "1.0.0.0",
          [("name", ⟨"site"⟩), ("databaseAdministratorLoginPassword", ⟨"pw"⟩)]⟩ :
          DeploymentParameters String)).1 =
      ⟨"sch", "1.0.0.0", [("name", ⟨"site"⟩), ("databaseAdministratorLoginPassword", ⟨"pw"⟩)]⟩ ∧
    (stripPasswords
        (⟨"sch", "1.0.0.0",
          [("name", ⟨"site"⟩), ("databaseAdministratorLoginPassword", ⟨"pw"⟩)]⟩ :
          DeploymentParameters String)).2.Parameters.lookup "name" =
      List.lookup "name"
        [("name", (⟨"site"⟩ : DeploymentParameter String)),
          ("databaseAdministratorLoginPassword", ⟨"pw"⟩)] :=
  ⟨(stripPasswords_frame String
      ⟨"sch", "1.0.0.0", [("name", ⟨"site"⟩), ("databaseAdministratorLoginPassword", ⟨"pw"⟩)]⟩).1,
    (stripPasswords_frame String
      ⟨"sch", "1.0.0.0", [("name", ⟨"site"⟩), ("databaseAdministratorLoginPassword", ⟨"pw"⟩)]⟩).2.2.2
      "name" (by decide) (by decide)⟩

/-- Claim C8 (amended): provided the subscription ID argument is
non-empty (its check comes first), every input in which exactly one of
clientID and clientSecret is non-empty is rejected with the
incomplete-credentials error, by pure validation before any network
call. -/
theorem checkProvisionArgs_mixed_rejected :
    ∀ (subscriptionID clientID clientSecret : String) (useDeviceAuth : Bool),
      subscriptionID ≠ "" →
      ((clientID ≠ "" ∧ clientSecret = "") ∨ (clientID = "" ∧ clientSecret ≠ "")) →
      checkProvisionArgs subscriptionID clientID clientSecret useDeviceAuth =
        .error "--client-id and --client-secret must be specified together or not at all" := by
  intro sub cid cs da hsub h
  rcases h with ⟨h1, h2⟩ | ⟨h1, h2⟩ <;>
    simp [checkProvisionArgs, hsub, h1, h2]

/-- Witness for C8: a client ID with no secret (and a present
subscription ID) is rejected with the incomplete-credentials error. -/
theorem checkProvisionArgs_mixed_rejected_witness :
    checkProvisionArgs "sub-1" "app-id" "" false =
      .error "--client-id and --client-secret must be specified together or not at all" :=
  checkProvisionArgs_mixed_rejected "sub-1" "app-id" "" false (by decide)
    (Or.inl ⟨by decide, rfl⟩)

/-- Counterexample for C8 as stated: with an empty subscription ID and
only a client ID set, validation fails with the missing-subscription
error, not the incomplete-credentials one — the subscription check runs
first. -/
theorem checkProvisionArgs_subscription_first :
    checkProvisionArgs "" "app-id" "" false =
        .error "no value found for \"subscription-id\"" ∧
      checkProvisionArgs "" "app-id" "" false ≠
        .error "--client-id and --client-secret must be specified together or not at all" := by
  constructor
  · rfl
  · intro h
    rw [checkProvisionArgs] at h
    simp at h

/-- Claim C9: on the service-principal path (device auth not forced) with
an unresolved tenant ID — empty, hence the placeholder `common`, or the
placeholder itself — `getAuthorizer` fails with the missing-tenant error
and takes no step at all: no tenant discovery, no token acquisition. -/
theorem getAuthorizer_sp_requires_tenant :
    ∀ (w : AuthWorld) (subscriptionID clientID clientSecret : String),
      getAuthorizer w false subscriptionID clientID clientSecret "" =
        (.error "tenant inference unsupported with Service Principal authentication", []) ∧
      getAuthorizer w false subscriptionID clientID clientSecret "common" =
        (.error "tenant inference unsupported with Service Principal authentication", []) := by
  intro w s c cs
  constructor <;> rfl

end BuffaloAzure
